import Mathlib

/-!
Verification of the voicemail notification Lambda
(`voicemail_to_email_simple_hyperlink.py`) against its design document.

Python strings are sequences of Unicode code points, so they are modelled as
`List Char` (named `PyStr` below); Lean's byte-based `String` type is only used
for literals, converted via `.data`.  External primitives that the source calls
but does not define (HMAC-SHA256, `strftime` date rendering) are taken as
function parameters of the embedded definitions.  Fallible Python code
(functions that may raise) is embedded with `Option`/`Except`.
-/

deriving instance DecidableEq for Except

/-- Python strings modelled as lists of code points. -/
abbrev PyStr := List Char

/-- Literal helper: the code points of a Lean string literal. -/
def str (s : String) : PyStr := s.data

/-- Python `str.strip()` (no argument): remove leading and trailing whitespace. -/
def pyStrip (s : PyStr) : PyStr :=
  ((s.dropWhile Char.isWhitespace).reverse.dropWhile Char.isWhitespace).reverse

/-- Python `str.strip(ch)` for a single character: remove it from both ends. -/
def pyStripChar (c : Char) (s : PyStr) : PyStr :=
  ((s.dropWhile (· = c)).reverse.dropWhile (· = c)).reverse

/-- Python `str.rstrip(ch)` for a single character: remove it from the right end. -/
def pyRStripChar (c : Char) (s : PyStr) : PyStr :=
  (s.reverse.dropWhile (· = c)).reverse

/-- Python `sep.join(xs)`. -/
def pyJoin (sep : PyStr) (xs : List PyStr) : PyStr :=
  List.intercalate sep xs

/-- Worker for `pyReplace`; the fuel argument (initially the length of the
string, which bounds the number of steps) makes the recursion structural. -/
def pyReplaceAux (pat rep : PyStr) : Nat → PyStr → PyStr
  | 0, s => s
  | _, [] => []
  | fuel + 1, c :: rest =>
    if pat ≠ [] ∧ (c :: rest).take pat.length = pat then
      rep ++ pyReplaceAux pat rep fuel ((c :: rest).drop pat.length)
    else
      c :: pyReplaceAux pat rep fuel rest

/-- Python `s.replace(pat, rep)` for a nonempty pattern: replace all
non-overlapping occurrences, scanning left to right.  (For an empty pattern the
source never calls it; this model returns `s` unchanged in that case.) -/
def pyReplace (s pat rep : PyStr) : PyStr :=
  pyReplaceAux pat rep s.length s

/-- Python `s.split(sep, 1)` when `sep` occurs: the part before the first
occurrence of `sep` and the part after it.  Returns `none` when `sep` is
absent. -/
def pySplitOnce (sep : Char) : PyStr → Option (PyStr × PyStr)
  | [] => none
  | c :: rest =>
    if c = sep then some ([], rest)
    else match pySplitOnce sep rest with
      | some (l, r) => some (c :: l, r)
      | none => none

/-! ### Decimal integers: Python `int(...)` and f-string rendering -/

/-- Decimal digit characters, used to render integers. -/
def digitCh (d : Nat) : Char :=
  (['0', '1', '2', '3', '4', '5', '6', '7', '8', '9'].getD d '0')

/-- Worker for `natDigits`; the fuel argument (any bound strictly above `n`)
makes the recursion structural. -/
def natDigitsAux : Nat → Nat → PyStr
  | 0, _ => []
  | fuel + 1, n =>
    if n < 10 then [digitCh n]
    else natDigitsAux fuel (n / 10) ++ [digitCh (n % 10)]

/-- Decimal digits of a natural number, most significant first (the digit
sequence produced by a Python f-string for a nonnegative int). -/
def natDigits (n : Nat) : PyStr := natDigitsAux (n + 1) n

/-- Rendering of a Python int by an f-string: decimal digits, with a leading
minus sign for negative values. -/
def intRepr (i : Int) : PyStr :=
  if i < 0 then '-' :: natDigits i.natAbs else natDigits i.natAbs

/-- Digits-with-underscores validity for Python int literals: nonempty, no
leading/trailing underscore, no two consecutive underscores, and every
character a decimal digit or an underscore. -/
def underscoresOk (l : PyStr) : Bool :=
  match l with
  | [] => false
  | a :: _ =>
    a ≠ '_' && l.getLast? ≠ some '_' && l.all (fun c => c.isDigit || c = '_') &&
      noDoubleUnderscore l
where
  noDoubleUnderscore : PyStr → Bool
  | [] => true
  | [_] => true
  | a :: b :: t => !(a = '_' && b = '_') && noDoubleUnderscore (b :: t)

/-- Value of a nonempty all-digit string. -/
def parseNatDigits (l : PyStr) : Option Nat :=
  if l ≠ [] ∧ l.all Char.isDigit then
    some (l.foldl (fun a c => a * 10 + (c.toNat - 48)) 0)
  else none

/-- Python unsigned decimal int parsing (digits with optional single
underscores between digits). -/
def parseNatUnd (l : PyStr) : Option Nat :=
  if underscoresOk l then parseNatDigits (l.filter (· ≠ '_')) else none

/-- Model of Python `int(s)` on an ASCII string: optional surrounding
whitespace, an optional `+`/`-` sign, then decimal digits with optional single
underscores between digits.  `none` models the `ValueError` raise. -/
def parseIntPy (s : PyStr) : Option Int :=
  let t := pyStrip s
  if t.head? = some '-' then (parseNatUnd (t.drop 1)).map (fun n => -(n : Int))
  else if t.head? = some '+' then (parseNatUnd (t.drop 1)).map (fun n => (n : Int))
  else (parseNatUnd t).map (fun n => (n : Int))


/-! ### Percent-encoding (`urllib.parse.quote` / `unquote`) -/

/-- Characters `urllib.parse.quote` never encodes (letters, digits, `_.-~`);
with `safe=''` everything else is percent-encoded. -/
def quoteSafe (c : Char) : Bool :=
  c.isAlpha || c.isDigit || c = '_' || c = '.' || c = '-' || c = '~'

/-- UTF-8 bytes of one code point, as naturals. -/
def utf8Bytes (c : Char) : List Nat :=
  let n := c.toNat
  if n < 128 then [n]
  else if n < 2048 then [192 + n / 64, 128 + n % 64]
  else if n < 65536 then [224 + n / 4096, 128 + n / 64 % 64, 128 + n % 64]
  else [240 + n / 262144, 128 + n / 4096 % 64, 128 + n / 64 % 64, 128 + n % 64]

/-- Uppercase hex digit. -/
def hexUpper (d : Nat) : Char := (str "0123456789ABCDEF").getD d '0'

/-- Percent-encoding of one byte, uppercase as `quote` produces. -/
def pctEncodeByte (b : Nat) : PyStr := ['%', hexUpper (b / 16), hexUpper (b % 16)]

/-- Model of `urllib.parse.quote(s, safe='')`. -/
def pyQuote (s : PyStr) : PyStr :=
  (s.map (fun c =>
    if quoteSafe c then [c] else ((utf8Bytes c).map pctEncodeByte).flatten)).flatten

/-- Value of a hex digit character (either case), `none` otherwise. -/
def hexVal (c : Char) : Option Nat :=
  if c.isDigit then some (c.toNat - 48)
  else if 'a' ≤ c ∧ c ≤ 'f' then some (c.toNat - 87)
  else if 'A' ≤ c ∧ c ≤ 'F' then some (c.toNat - 55)
  else none

/-- First pass of `unquote`: each valid `%XX` becomes a byte (`Sum.inl`),
every other character passes through (`Sum.inr`). -/
def pctTokens : PyStr → List (Sum Nat Char)
  | [] => []
  | '%' :: a :: b :: rest =>
    match hexVal a, hexVal b with
    | some x, some y => Sum.inl (16 * x + y) :: pctTokens rest
    | _, _ => Sum.inr '%' :: pctTokens (a :: b :: rest)
  | c :: rest => Sum.inr c :: pctTokens rest

/-- Unicode replacement character, used by `errors='replace'` decoding. -/
def replacementChar : Char := Char.ofNat 65533

/-- Recognizer for UTF-8 continuation bytes. -/
def isUtf8Cont (b : Nat) : Bool := 128 ≤ b && b < 192

/-- Worker for `utf8Decode`; the fuel argument (initially the number of
bytes, each step consuming at least one) makes the recursion structural. -/
def utf8DecodeAux : Nat → List Nat → PyStr
  | 0, _ => []
  | _, [] => []
  | fuel + 1, b :: rest =>
    if b < 128 then Char.ofNat b :: utf8DecodeAux fuel rest
    else if 194 ≤ b && b ≤ 223 then
      match rest with
      | c1 :: rest1 =>
        if isUtf8Cont c1 then
          Char.ofNat ((b - 192) * 64 + (c1 - 128)) :: utf8DecodeAux fuel rest1
        else replacementChar :: utf8DecodeAux fuel rest
      | [] => [replacementChar]
    else if 224 ≤ b && b ≤ 239 then
      match rest with
      | c1 :: c2 :: rest2 =>
        if isUtf8Cont c1 && isUtf8Cont c2
            && !(b = 224 && c1 < 160) && !(b = 237 && 159 < c1) then
          Char.ofNat ((b - 224) * 4096 + (c1 - 128) * 64 + (c2 - 128))
            :: utf8DecodeAux fuel rest2
        else replacementChar :: utf8DecodeAux fuel rest
      | _ => replacementChar :: utf8DecodeAux fuel rest
    else if 240 ≤ b && b ≤ 244 then
      match rest with
      | c1 :: c2 :: c3 :: rest3 =>
        if isUtf8Cont c1 && isUtf8Cont c2 && isUtf8Cont c3
            && !(b = 240 && c1 < 144) && !(b = 244 && 143 < c1) then
          Char.ofNat ((b - 240) * 262144 + (c1 - 128) * 4096 + (c2 - 128) * 64 + (c3 - 128))
            :: utf8DecodeAux fuel rest3
        else replacementChar :: utf8DecodeAux fuel rest
      | _ => replacementChar :: utf8DecodeAux fuel rest
    else replacementChar :: utf8DecodeAux fuel rest

/-- UTF-8 decoding with replacement of invalid sequences, as Python's
`bytes.decode('utf-8', errors='replace')` used by `unquote`. -/
def utf8Decode (bytes : List Nat) : PyStr := utf8DecodeAux bytes.length bytes

/-- Second pass of `unquote`: decode maximal runs of consecutive bytes as
UTF-8, pass other characters through.  The accumulator holds the current byte
run in reverse. -/
def decodeRuns : List (Sum Nat Char) → List Nat → PyStr
  | [], bytes => utf8Decode bytes.reverse
  | Sum.inl b :: rest, bytes => decodeRuns rest (b :: bytes)
  | Sum.inr c :: rest, bytes => utf8Decode bytes.reverse ++ c :: decodeRuns rest []

/-- Model of `urllib.parse.unquote(s)`. -/
def pyUnquote (s : PyStr) : PyStr := decodeRuns (pctTokens s) []

/-! ### Capability-URL signer and verifier

`hmac.new(secret, message, sha256).hexdigest()` is an external primitive; it is
modelled by an arbitrary function parameter `h : PyStr → PyStr → PyStr`
taking the secret and the message. -/

/-- Signing message `f"{bucket}:{key}:{expires}"` (with `expires` already
rendered). -/
def sign_message (bucket key expiresStr : PyStr) : PyStr :=
  bucket ++ str ":" ++ key ++ str ":" ++ expiresStr

/-- Expiry computed by `generate_signed_url`:
`int(time.time()) + validity_hours * 3600`. -/
def signedExpires (now validity_hours : Int) : Int := now + validity_hours * 3600

/-- Signature computed by `generate_signed_url`: the keyed hash of the
signing message. -/
def signedSignature (h : PyStr → PyStr → PyStr) (bucket key secret_key : PyStr)
    (expires : Int) : PyStr :=
  h secret_key (sign_message bucket key (intRepr expires))

/-- Model of `generate_signed_url` (the produced URL string). -/
def generate_signed_url (h : PyStr → PyStr → PyStr)
    (redirect_api_url bucket key secret_key : PyStr)
    (validity_hours now : Int) : PyStr :=
  let expires := signedExpires now validity_hours
  let signature := signedSignature h bucket key secret_key expires
  let encoded_key := pyQuote key
  redirect_api_url ++ str "/voicemail/" ++ bucket ++ str "/" ++ encoded_key
    ++ str "?expires=" ++ intRepr expires ++ str "&signature=" ++ signature

/-- Model of `verify_signature`: recompute the expected signature and compare
(`hmac.compare_digest` is a timing-safe string equality). -/
def verify_signature (h : PyStr → PyStr → PyStr)
    (bucket key expires signature secret_key : PyStr) : Bool :=
  signature == h secret_key (sign_message bucket key expires)

/-! ### Function URL handler (`handle_url_generation`) -/

/-- HTTP-style response of the Function URL handler. -/
structure HttpResp where
  statusCode : Nat
  contentType : Option PyStr
  body : Option PyStr
  location : Option PyStr
  cacheControl : Option PyStr
deriving DecidableEq

/-- Response with a `text/html` content type. -/
def htmlResp (code : Nat) (b : PyStr) : HttpResp :=
  ⟨code, some (str "text/html"), some b, none, none⟩

/-- 302 redirect response with the no-store cache header. -/
def redirectResp (loc : PyStr) : HttpResp :=
  ⟨302, none, none, some loc, some (str "no-cache, no-store, must-revalidate")⟩

/-- Outcome of `s3_client.head_object`: object present, a 404 `ClientError`,
or any other `ClientError` (which the source re-raises). -/
inductive HeadResult where
  | found : HeadResult
  | notFound : HeadResult
  | failure : PyStr → HeadResult
deriving DecidableEq

/-- Relevant parts of a Function URL event: the raw path and the
`expires`/`signature` query parameters (absent ↦ `none`). -/
structure UrlEvent where
  rawPath : PyStr
  expiresParam : Option PyStr
  signatureParam : Option PyStr
deriving DecidableEq

/-- Outcome of `datetime.fromtimestamp(t).strftime(..)` on an arbitrary
integer timestamp: the rendered date, a `ValueError` raise (CPython rejects
timestamps outside years 1..9999, e.g. any `t` before year 1), or an
`OverflowError`/`OSError` raise for still more extreme values. -/
inductive TsRender where
  | ok : PyStr → TsRender
  | valueError : TsRender
  | fatal : TsRender
deriving DecidableEq

/-- Model of `handle_url_generation`.  External pieces appear as parameters:
`h` the HMAC primitive, `fmtTs` the `datetime.fromtimestamp(..).strftime(..)`
rendering used in the expired-link page (fallible: it runs inside the same
`try` as `int(expires)`, so its `ValueError` is caught as 400 Invalid
expiration timestamp while `OverflowError`/`OSError` fall through to the
outer handler's 500), `signing_secret` the value of the `SIGNING_SECRET`
environment variable (empty ↦ unset), `now` the value of `int(time.time())`,
`head` the object-store existence check and `presign` the presigned-URL
issuance. -/
def handle_url_generation (h : PyStr → PyStr → PyStr) (fmtTs : Int → TsRender)
    (signing_secret : PyStr) (now : Int)
    (head : PyStr → PyStr → HeadResult) (presign : PyStr → PyStr → PyStr)
    (event : UrlEvent) : HttpResp :=
  if ¬ (event.rawPath.take 11 = str "/voicemail/") then
    htmlResp 404 (str "<h1>404 Not Found</h1><p>Invalid path</p>")
  else
    let path_after := event.rawPath.drop 11
    if path_after = [] ∨ ¬ (path_after.contains '/') then
      htmlResp 400 (str "<h1>400 Bad Request</h1><p>Missing bucket or key</p>")
    else
      match pySplitOnce '/' path_after with
      | none =>
        htmlResp 400 (str "<h1>400 Bad Request</h1><p>Missing bucket or key</p>")
      | some (bucket, key_encoded) =>
        match event.expiresParam, event.signatureParam with
        | some expires, some signature =>
          if expires = [] ∨ signature = [] then
            htmlResp 400 (str "<h1>400 Bad Request</h1><p>Missing required parameters</p>")
          else
            let key := pyUnquote key_encoded
            match parseIntPy expires with
            | none =>
              htmlResp 400 (str "<h1>400 Bad Request</h1><p>Invalid expiration timestamp</p>")
            | some expires_timestamp =>
              if now > expires_timestamp then
                match fmtTs expires_timestamp with
                | TsRender.ok expires_date =>
                  htmlResp 403 (str "<h1>403 Forbidden</h1><p>This link expired on "
                    ++ expires_date
                    ++ str ".</p><p>Please contact support for a new link.</p>")
                | TsRender.valueError =>
                  htmlResp 400 (str "<h1>400 Bad Request</h1><p>Invalid expiration timestamp</p>")
                | TsRender.fatal =>
                  htmlResp 500 (str "<h1>500 Internal Server Error</h1><p>Failed to generate URL</p>")
              else if signing_secret = [] then
                htmlResp 500 (str "<h1>500 Internal Server Error</h1><p>Server configuration error</p>")
              else if verify_signature h bucket key expires signature signing_secret = false then
                htmlResp 403 (str "<h1>403 Forbidden</h1><p>Invalid signature. This link may have been tampered with.</p>")
              else
                match head bucket key with
                | HeadResult.notFound =>
                  htmlResp 404 (str "<h1>404 Not Found</h1><p>Recording not found. It may have been deleted.</p>")
                | HeadResult.failure _ =>
                  htmlResp 500 (str "<h1>500 Internal Server Error</h1><p>Failed to generate URL</p>")
                | HeadResult.found => redirectResp (presign bucket key)
        | _, _ =>
          htmlResp 400 (str "<h1>400 Bad Request</h1><p>Missing required parameters</p>")

/-- Function URL event produced by requesting the link that
`generate_signed_url` returns (same path and query parameters). -/
def mkLinkEvent (h : PyStr → PyStr → PyStr) (bucket key secret_key : PyStr)
    (validity_hours now : Int) : UrlEvent :=
  ⟨str "/voicemail/" ++ bucket ++ str "/" ++ pyQuote key,
   some (intRepr (signedExpires now validity_hours)),
   some (signedSignature h bucket key secret_key (signedExpires now validity_hours))⟩

/-! ### Transcription results and preview building

An item of an AWS Transcribe result carries a type (`"pronunciation"` or
`"punctuation"`), a list of alternatives (each modelled by its content string,
with a missing content defaulting to `""` as `.get("content", "")` does) and
optional start/end times (which Transcribe renders as decimal strings).
`channel_labels`/`speaker_labels` model the corresponding optional result
sections: `some` iff the key is present and truthy, carrying the inner
`channels`/`segments` list. -/

structure TransItem where
  type : PyStr
  contents : List PyStr
  start_time : Option PyStr
  end_time : Option PyStr
deriving DecidableEq

/-- `item["alternatives"][0].get("content", "")`. -/
def itemContent (it : TransItem) : PyStr := it.contents.headD []

structure SpeakerSegment where
  speaker_label : Option PyStr
  items : List TransItem
deriving DecidableEq

structure TransChannel where
  items : List TransItem
deriving DecidableEq

structure TransResults where
  transcripts : List PyStr
  channel_labels : Option (List TransChannel)
  speaker_labels : Option (List SpeakerSegment)
  items : List TransItem
deriving DecidableEq

/-- One step of the channel word loop: a pronunciation starts a new word, a
punctuation is appended to the last word when one exists, otherwise it stands
alone; other types are ignored. -/
def channelStep (words : List PyStr) (it : TransItem) : List PyStr :=
  let content := itemContent it
  if it.type = str "pronunciation" then words ++ [content]
  else if it.type = str "punctuation" ∧ words ≠ [] then
    words.dropLast ++ [words.getLastD [] ++ content]
  else if it.type = str "punctuation" then words ++ [content]
  else words

/-- Per-channel text: join words with spaces, then
`.replace(" ,", ",").replace(" .", ".").strip()`. -/
def channelText (ch : TransChannel) : PyStr :=
  let words := ch.items.foldl channelStep []
  pyStrip (pyReplace (pyReplace (pyJoin (str " ") words) (str " ,") (str ","))
    (str " .") (str "."))

/-- Model of `_build_preview_channel`. -/
def _build_preview_channel (results : TransResults) (limit : Nat) : PyStr :=
  let channels := results.channel_labels.getD []
  let all_words := channels.foldl (fun acc ch =>
    let text := channelText ch
    if text ≠ [] then acc ++ [text] else acc) []
  (pyStrip (pyJoin (str " ") all_words)).take limit

/-- Association lookup with Python `dict` key semantics. -/
def assocGet {α : Type} (m : List (PyStr × α)) (k : PyStr) : Option α :=
  (m.find? (fun p => p.1 == k)).map (fun p => p.2)

/-- Association update with Python `dict` semantics: overwrite in place when
the key exists, append otherwise (insertion order preserved). -/
def assocSet {α : Type} (m : List (PyStr × α)) (k : PyStr) (v : α) :
    List (PyStr × α) :=
  if (m.find? (fun p => p.1 == k)).isSome then
    m.map (fun p => if p.1 == k then (p.1, v) else p)
  else m ++ [(k, v)]

/-- Model of `_build_preview_diarization`. -/
def _build_preview_diarization (results : TransResults) (limit : Nat) : PyStr :=
  let speaker_map := (results.speaker_labels.getD []).foldl (fun m seg =>
    let speaker := seg.speaker_label.getD (str "spk_?")
    seg.items.foldl (fun m it =>
      match it.start_time with
      | some st => if st ≠ [] then assocSet m st speaker else m
      | none => m) m) []
  let step := fun (st : List (PyStr × List PyStr) × Option PyStr) (it : TransItem) =>
    let per_speaker := st.1
    let current_speaker := st.2
    if it.type = str "pronunciation" then
      let current := match it.start_time with
        | some stt =>
          match assocGet speaker_map stt with
          | some sp => some sp
          | none => current_speaker
        | none => current_speaker
      let key := match current with
        | some s => if s ≠ [] then s else str "spk_?"
        | none => str "spk_?"
      let content := itemContent it
      let per' := match assocGet per_speaker key with
        | some ws => assocSet per_speaker key (ws ++ [content])
        | none => assocSet per_speaker key [content]
      (per', current)
    else if it.type = str "punctuation" then
      match current_speaker with
      | some cs =>
        match assocGet per_speaker cs with
        | some ws =>
          if ws ≠ [] then
            (assocSet per_speaker cs (ws.dropLast ++ [ws.getLastD [] ++ itemContent it]),
             current_speaker)
          else (per_speaker, current_speaker)
        | none => (per_speaker, current_speaker)
      | none => (per_speaker, current_speaker)
    else (per_speaker, current_speaker)
  let folded := results.items.foldl step ([], none)
  let all_text := folded.1.foldl (fun acc p =>
    let text := pyStrip (pyReplace (pyReplace (pyJoin (str " ") p.2)
      (str " ,") (str ",")) (str " .") (str "."))
    if text ≠ [] then acc ++ [text] else acc) []
  (pyStrip (pyJoin (str " ") all_text)).take limit

def DEFAULT_LANGUAGE : PyStr := str "en-US"
def DEFAULT_PREVIEW_LEN : Nat := 700
def DEFAULT_MODE : PyStr := str "channel"

/-- Model of `build_transcription_preview`.  (In the fallback branch the
source indexes `results.get("transcripts", [{}])[0]`; the model takes the
first transcript or `""`.) -/
def build_transcription_preview (results : TransResults) (mode : PyStr)
    (limit : Nat) : PyStr :=
  if mode = str "channel" ∧ results.channel_labels.isSome then
    _build_preview_channel results limit
  else if mode = str "diarization" ∧ results.speaker_labels.isSome then
    _build_preview_diarization results limit
  else
    pyStrip ((results.transcripts.headD []).take limit)

/-! ### Duration -/

/-- Model of Python `float(s)` on the plain decimal strings Transcribe
produces: optional surrounding whitespace, optional sign, digits with an
optional single decimal point (exponents/`inf`/`nan` are out of scope).
`none` models the `ValueError` raise. -/
def parseFloatPy (s : PyStr) : Option ℚ :=
  let t := pyStrip s
  let signed : Int × PyStr := match t with
    | '-' :: r => (-1, r)
    | '+' :: r => (1, r)
    | _ => (1, t)
  match pySplitOnce '.' signed.2 with
  | none => (parseNatDigits signed.2).map (fun n => ((signed.1 * n : Int) : ℚ))
  | some (ip, fp) =>
    if ip = [] ∧ fp = [] then none
    else if ip.all Char.isDigit ∧ fp.all Char.isDigit then
      let ipv : Nat := ip.foldl (fun a c => a * 10 + (c.toNat - 48)) 0
      let fpv : Nat := fp.foldl (fun a c => a * 10 + (c.toNat - 48)) 0
      some ((signed.1 : ℚ) * ((ipv : ℚ) + (fpv : ℚ) / ((10 : ℚ) ^ fp.length)))
    else none

/-- Backward scan of `get_actual_recording_duration`: the first item (from
the end) with a truthy end time decides the result; an unparsable end time
takes the `except` path, which returns 0. -/
def durationScan : List TransItem → ℚ
  | [] => 0
  | it :: rest =>
    match it.end_time with
    | some s => if s ≠ [] then (parseFloatPy s).getD 0 else durationScan rest
    | none => durationScan rest

/-- Model of `get_actual_recording_duration`. -/
def get_actual_recording_duration (results : TransResults) : ℚ :=
  durationScan results.items.reverse

/-! ### Transcription supervisor -/

def TRANSCRIBE_MAX_WAIT_SECS : Nat := 600
def TRANSCRIBE_POLL_SECS : Nat := 3

/-- Poll loop of `wait_for_transcription`, with the status source indexed by
poll number.  In the source, `waited` grows by `TRANSCRIBE_POLL_SECS` after
each non-terminal poll and the loop raises once `waited ≥
TRANSCRIBE_MAX_WAIT_SECS`; so after the poll numbered `i` (from 0) the loop
raises iff `3 * (i + 1) ≥ 600`, i.e. `remaining` counts the sleeps still
allowed, starting from `600 / 3 - 1`.  Returns the outcome (`ok` the terminal
status, `error` the `TimeoutError`) and the number of polls made. -/
def waitFrom (status : Nat → PyStr) : Nat → Nat → Except PyStr PyStr × Nat
  | i, remaining =>
    let s := status i
    if s = str "COMPLETED" ∨ s = str "FAILED" then (Except.ok s, i + 1)
    else
      match remaining with
      | 0 => (Except.error (str "Transcription job timed out"), i + 1)
      | r + 1 => waitFrom status (i + 1) r

/-- Model of `wait_for_transcription`. -/
def wait_for_transcription (status : Nat → PyStr) : Except PyStr PyStr × Nat :=
  waitFrom status 0 (TRANSCRIBE_MAX_WAIT_SECS / TRANSCRIBE_POLL_SECS - 1)

/-! ### S3 recording search -/

def MAX_TIME_WINDOW_MINUTES : Nat := 5

/-- Candidate recording location (the dict built by
`generate_s3_uris_with_time_window`). -/
structure RecCand where
  key : PyStr
  uri : PyStr
  timestamp : PyStr
  offset_minutes : Int
deriving DecidableEq

/-- Model of `generate_s3_uris_with_time_window`.  Time is a minute count;
`fmtDay`/`fmtTime` stand for the two `strftime` renderings of
`now + timedelta(minutes=offset)`. -/
def generate_s3_uris_with_time_window (fmtDay fmtTime : Int → PyStr)
    (bucket pfx initial_contact_id : PyStr) (now : Int)
    (minutes_offset : Nat) : List RecCand :=
  ((List.range (2 * minutes_offset + 1)).map
      (fun i => (i : Int) - (minutes_offset : Int))).map
    (fun offset =>
      let dt := now + offset
      let date_path := fmtDay dt
      let timestamp := fmtTime dt
      let filename := initial_contact_id ++ str "_" ++ timestamp ++ str "_UTC.wav"
      let key := if pfx ≠ [] then
          pfx ++ str "/ivr/" ++ date_path ++ str "/" ++ filename
        else str "ivr/" ++ date_path ++ str "/" ++ filename
      ⟨key, str "s3://" ++ bucket ++ str "/" ++ key, timestamp, offset⟩)

/-- Comparison used by `s3_uris.sort(key=lambda x: abs(x['offset_minutes']))`. -/
def candLe (a b : RecCand) : Prop :=
  a.offset_minutes.natAbs ≤ b.offset_minutes.natAbs

instance : DecidableRel candLe := fun a b =>
  Nat.decLe a.offset_minutes.natAbs b.offset_minutes.natAbs

instance : IsTotal RecCand candLe :=
  ⟨fun a b => Nat.le_total a.offset_minutes.natAbs b.offset_minutes.natAbs⟩

instance : IsTrans RecCand candLe := ⟨fun _ _ _ => Nat.le_trans⟩

/-- Probe order within a window: Python's `list.sort` is stable, and any two
stable sorts by the same key agree, so the stable `insertionSort` models it. -/
def sortedCandidates (fmtDay fmtTime : Int → PyStr)
    (bucket pfx initial_contact_id : PyStr) (now : Int) (w : Nat) : List RecCand :=
  List.insertionSort candLe
    (generate_s3_uris_with_time_window fmtDay fmtTime bucket pfx
      initial_contact_id now w)

/-- Probe one window's candidates in order with `head_object`; stop at the
first hit, abort on a non-404 error.  Also returns the keys probed, in
order. -/
def probeWindow (head : PyStr → HeadResult) :
    List RecCand → Except PyStr (Option RecCand) × List PyStr
  | [] => (Except.ok none, [])
  | c :: rest =>
    match head c.key with
    | HeadResult.failure e => (Except.error e, [c.key])
    | HeadResult.found => (Except.ok (some c), [c.key])
    | HeadResult.notFound =>
      let pr := probeWindow head rest
      (pr.1, c.key :: pr.2)

/-- Window loop of `find_recording_in_s3` (`range(5, 0, -1)`), counting down
the half-width; the short inter-window sleep has no observable effect here. -/
def findRecAux (head : PyStr → HeadResult) (fmtDay fmtTime : Int → PyStr)
    (bucket pfx initial_contact_id : PyStr) (now : Int) :
    Nat → Except PyStr (Option RecCand) × List PyStr
  | 0 => (Except.ok none, [])
  | w + 1 =>
    let pr := probeWindow head
      (sortedCandidates fmtDay fmtTime bucket pfx initial_contact_id now (w + 1))
    match pr.1 with
    | Except.error e => (Except.error e, pr.2)
    | Except.ok (some c) => (Except.ok (some c), pr.2)
    | Except.ok none =>
      let pr' := findRecAux head fmtDay fmtTime bucket pfx initial_contact_id now w
      (pr'.1, pr.2 ++ pr'.2)

/-- Model of `find_recording_in_s3`.  Returns the outcome and the keys passed
to the existence check, in probe order. -/
def find_recording_in_s3 (head : PyStr → HeadResult)
    (fmtDay fmtTime : Int → PyStr) (bucket pfx initial_contact_id : PyStr)
    (now : Int) : Except PyStr (Option RecCand) × List PyStr :=
  findRecAux head fmtDay fmtTime bucket pfx initial_contact_id now
    MAX_TIME_WINDOW_MINUTES

/-! ### Voicemail processing handler -/

/-- Contact attributes the handler reads. -/
structure ConnAttrs where
  emailRecipient : Option PyStr
  recipientName : Option PyStr
deriving DecidableEq

/-- `Details.ContactData` of an Amazon Connect event; fields the handler
indexes with `[]` (raising `KeyError` when absent) are optional here. -/
structure ContactData where
  initialContactId : Option PyStr
  contactId : Option PyStr
  instanceARN : Option PyStr
  customerEndpointAddress : Option PyStr
  attributes : ConnAttrs
deriving DecidableEq

/-- Environment variables read by the processing path (absent ↦ `none`). -/
structure EnvCfg where
  base_path : Option PyStr
  email_sender : Option PyStr
  url_expiration : Option PyStr
  recording_wait_time : Option PyStr
  redirect_api_url : Option PyStr
  signing_secret : Option PyStr
deriving DecidableEq

/-- Model of `validate_environment`; the error carries the `ValueError`
message (the `int(...)` failure message is abbreviated). -/
def validate_environment (env : EnvCfg) :
    Except PyStr (PyStr × Int × PyStr × Int) :=
  let base_path := pyStripChar '/' (env.base_path.getD [])
  if base_path = [] then
    Except.error (str "BASE_PATH environment variable is required")
  else
    let email_sender := env.email_sender.getD []
    if email_sender = [] then
      Except.error (str "EMAIL_SENDER environment variable is required")
    else
      match parseIntPy (env.url_expiration.getD (str "604800")) with
      | none => Except.error (str "invalid literal for int()")
      | some url_expiration =>
        match parseIntPy (env.recording_wait_time.getD (str "70")) with
        | none => Except.error (str "invalid literal for int()")
        | some recording_wait_time =>
          Except.ok (base_path, url_expiration, email_sender, recording_wait_time)

/-- Model of `extract_region_from_arn`: `arn.split(":")[3]`, `None` on
IndexError. -/
def extract_region_from_arn (arn : PyStr) : Option PyStr :=
  (List.splitOn ':' arn)[3]?

/-- Fallback of `resolve_region`: the boto3 session/STS region (both local
configuration lookups, collapsed into one optional value), else the
`RuntimeError`. -/
def regionFallback (sessionRegion : Option PyStr) : Except PyStr PyStr :=
  match sessionRegion with
  | some r =>
    if r ≠ [] then Except.ok r
    else Except.error (str "Unable to determine AWS region")
  | none => Except.error (str "Unable to determine AWS region")

/-- Model of `resolve_region`. -/
def resolve_region (sessionRegion : Option PyStr) (instance_arn : PyStr) :
    Except PyStr PyStr :=
  match extract_region_from_arn instance_arn with
  | some r => if r ≠ [] then Except.ok r else regionFallback sessionRegion
  | none => regionFallback sessionRegion

/-- Outcome of one `start_transcription_job` API call. -/
inductive StartOutcome where
  | started : StartOutcome
  | conflict : StartOutcome
  | clientError : PyStr → StartOutcome
deriving DecidableEq

/-- Failure modes of the start helper: a `TranscriptionError` raise (handled
as 502) or an uncaught `ClientError` from the retry (handled by the generic
`except` as 500). -/
inductive TransStartErr where
  | transcriptionError : PyStr → TransStartErr
  | uncaught : PyStr → TransStartErr
deriving DecidableEq

/-- Model of `start_transcription_job`: name the job from the clock, retry
exactly once with a mutated name on a `ConflictException`; the job settings
(media format, channel/diarization mode) do not affect the outcome modelled
here.  Also returns the trace of start calls. -/
def start_transcription_job (startJob : PyStr → StartOutcome) (nowEpoch : Int) :
    Except TransStartErr PyStr × List PyStr :=
  let job_name := str "voicemail-transcribe-" ++ intRepr nowEpoch
  match startJob job_name with
  | StartOutcome.started =>
    (Except.ok job_name, [str "transcribe.start_transcription_job"])
  | StartOutcome.clientError m =>
    (Except.error (TransStartErr.transcriptionError
        (str "Failed to start transcription: " ++ m)),
     [str "transcribe.start_transcription_job"])
  | StartOutcome.conflict =>
    let job_name2 := job_name ++ str "-" ++ intRepr nowEpoch
    match startJob job_name2 with
    | StartOutcome.started =>
      (Except.ok job_name2,
       [str "transcribe.start_transcription_job", str "transcribe.start_transcription_job"])
    | StartOutcome.conflict =>
      (Except.error (TransStartErr.uncaught (str "ConflictException")),
       [str "transcribe.start_transcription_job", str "transcribe.start_transcription_job"])
    | StartOutcome.clientError m =>
      (Except.error (TransStartErr.uncaught m),
       [str "transcribe.start_transcription_job", str "transcribe.start_transcription_job"])

/-- Arguments of the notification send. -/
structure EmailReq where
  sender : PyStr
  recipient : PyStr
  caller : PyStr
  preview : PyStr
  url : PyStr
  displayName : PyStr
  duration : ℚ
deriving DecidableEq

/-- External collaborators of the processing path, as deterministic stubs.
`headObject` takes bucket and key; `jobStatus` is indexed by poll number;
`transcript` is the parsed `results` object of the transcript JSON. -/
structure ProcCollab where
  sessionRegion : Option PyStr
  headObject : PyStr → PyStr → HeadResult
  startJob : PyStr → StartOutcome
  jobStatus : Nat → PyStr
  transcript : Except PyStr TransResults
  sendEmail : EmailReq → Except PyStr PyStr

/-- Ambient values of one invocation: the HMAC primitive, the epoch clock
(`int(time.time())`), the search anchor time in minutes
(`datetime.utcnow()`; the source re-reads the clock on the second search
attempt, the model reuses the same anchor) and the `strftime` renderings. -/
structure ProcCtx where
  hmac : PyStr → PyStr → PyStr
  nowEpoch : Int
  searchNow : Int
  fmtDay : Int → PyStr
  fmtTime : Int → PyStr

/-- Return value of the processing handler (`statusCode`/`message` plus the
success `data` fields). -/
structure ProcResp where
  statusCode : Nat
  message : Option PyStr
  dataTimestamp : Option PyStr
  dataUri : Option PyStr
  dataDuration : Option ℚ
  dataMessageId : Option PyStr
deriving DecidableEq

/-- Response with only a status code and a message. -/
def procMsg (code : Nat) (m : PyStr) : ProcResp :=
  ⟨code, some m, none, none, none, none⟩

/-- Trace tag of one existence check. -/
def headTag (k : PyStr) : PyStr := str "s3.head_object " ++ k

/-- Stages of `handle_voicemail_processing` after a recording was located:
transcribe, poll, fetch and parse the transcript, build the signed URL, send
the email.  `trace0` is the trace accumulated by the search. -/
def processLocatedRecording (ctx : ProcCtx) (collab : ProcCollab) (env : EnvCfg)
    (bucket : PyStr) (url_expiration : Int)
    (email_sender email_recipient caller_number display_name : PyStr)
    (loc : RecCand) (trace0 : List PyStr) : ProcResp × List PyStr :=
  let started := start_transcription_job collab.startJob ctx.nowEpoch
  let trace1 := trace0 ++ started.2
  match started.1 with
  | Except.error (TransStartErr.transcriptionError m) => (procMsg 502 m, trace1)
  | Except.error (TransStartErr.uncaught _) =>
    (procMsg 500 (str "Transcription processing error"), trace1)
  | Except.ok _job_name =>
    let waited := wait_for_transcription collab.jobStatus
    let trace2 := trace1 ++ List.replicate waited.2 (str "transcribe.get_transcription_job")
    match waited.1 with
    | Except.error _ => (procMsg 500 (str "Transcription processing error"), trace2)
    | Except.ok status =>
      if status ≠ str "COMPLETED" then
        (procMsg 502 (str "Transcription failed: " ++ status), trace2)
      else
        let trace3 := trace2 ++ [str "fetch_transcript"]
        match collab.transcript with
        | Except.error _ => (procMsg 500 (str "Transcription processing error"), trace3)
        | Except.ok results =>
          let preview0 := build_transcription_preview results DEFAULT_MODE DEFAULT_PREVIEW_LEN
          let duration := get_actual_recording_duration results
          let preview := if preview0 = [] then str "No transcription available" else preview0
          let redirect_api_url := pyRStripChar '/' (env.redirect_api_url.getD [])
          let signing_secret := env.signing_secret.getD []
          if redirect_api_url = [] ∨ signing_secret = [] then
            (procMsg 500 (str "Error generating signed URL"), trace3)
          else
            let validity_hours := Int.fdiv url_expiration 3600
            let redirect_url := generate_signed_url ctx.hmac redirect_api_url bucket
              loc.key signing_secret validity_hours ctx.nowEpoch
            let trace4 := trace3 ++ [str "ses.send_email"]
            match collab.sendEmail ⟨email_sender, email_recipient, caller_number,
                preview, redirect_url, display_name, duration⟩ with
            | Except.error _ => (procMsg 500 (str "Email send failed"), trace4)
            | Except.ok message_id =>
              (⟨200, some (str "Voicemail processed successfully"), some loc.timestamp,
                some loc.uri, some duration, some message_id⟩, trace4)

/-- Model of `handle_voicemail_processing` (entered with
`Details.ContactData` present, which the router guarantees).  Returns the
response and the trace of collaborator calls made, in order. -/
def handle_voicemail_processing (ctx : ProcCtx) (collab : ProcCollab)
    (env : EnvCfg) (cd : ContactData) : ProcResp × List PyStr :=
  match validate_environment env with
  | Except.error e => (procMsg 500 e, [])
  | Except.ok (base_path, url_expiration, email_sender, _recording_wait_time) =>
    match cd.initialContactId with
    | none => (procMsg 400 (str "Missing contact data: 'InitialContactId'"), [])
    | some initial_contact_id =>
      match cd.contactId with
      | none => (procMsg 400 (str "Missing contact data: 'ContactId'"), [])
      | some _contact_id =>
        match cd.instanceARN with
        | none => (procMsg 400 (str "Missing contact data: 'InstanceARN'"), [])
        | some instance_arn =>
          let attributes := cd.attributes
          let caller_number := cd.customerEndpointAddress.getD (str "Unknown")
          let email_recipient := attributes.emailRecipient
          let recipient_name := match attributes.recipientName with
            | some r => some r
            | none => email_recipient
          if email_recipient = none ∨ email_recipient = some [] then
            (procMsg 400 (str "Missing emailRecipient attribute"), [])
          else
            match resolve_region collab.sessionRegion instance_arn with
            | Except.error _ => (procMsg 500 (str "Failed to initialize AWS clients"), [])
            | Except.ok _region =>
              let split := pySplitOnce '/' base_path
              let bucket := match split with
                | some bp => bp.1
                | none => base_path
              let pfx := match split with
                | some bp => bp.2
                | none => []
              let found1 := find_recording_in_s3 (collab.headObject bucket)
                ctx.fmtDay ctx.fmtTime bucket pfx initial_contact_id ctx.searchNow
              match found1.1 with
              | Except.error _ =>
                (procMsg 500 (str "Error searching for recording"), found1.2.map headTag)
              | Except.ok (some loc) =>
                processLocatedRecording ctx collab env bucket url_expiration
                  email_sender (email_recipient.getD []) caller_number
                  (recipient_name.getD []) loc (found1.2.map headTag)
              | Except.ok none =>
                let found2 := find_recording_in_s3 (collab.headObject bucket)
                  ctx.fmtDay ctx.fmtTime bucket pfx initial_contact_id ctx.searchNow
                let trace12 := (found1.2 ++ found2.2).map headTag
                match found2.1 with
                | Except.error _ =>
                  (procMsg 500 (str "Error searching for recording"), trace12)
                | Except.ok none => (procMsg 404 (str "Recording not found"), trace12)
                | Except.ok (some loc) =>
                  processLocatedRecording ctx collab env bucket url_expiration
                    email_sender (email_recipient.getD []) caller_number
                    (recipient_name.getD []) loc trace12


/-! ### Round-trip facts about decimal rendering and parsing -/

theorem natDigitsAux_congr : ∀ {f f' n : Nat}, n < f → n < f' →
    natDigitsAux f n = natDigitsAux f' n := by
  intro f
  induction f with
  | zero => omega
  | succ fuel ih =>
    intro f' n h h'
    cases f' with
    | zero => omega
    | succ f'' =>
      simp only [natDigitsAux]
      by_cases h10 : n < 10
      · simp [h10]
      · simp only [h10, if_false]
        congr 1
        exact ih (by omega) (by omega)

theorem natDigits_eq (n : Nat) :
    natDigits n =
      if n < 10 then [digitCh n] else natDigits (n / 10) ++ [digitCh (n % 10)] := by
  show natDigitsAux (n + 1) n = _
  simp only [natDigitsAux]
  by_cases h10 : n < 10
  · simp [h10]
  · simp only [h10, if_false]
    congr 1
    exact natDigitsAux_congr (by omega) (by omega)

theorem digitCh_isDigit {d : Nat} (h : d < 10) : (digitCh d).isDigit = true := by
  interval_cases d <;> decide

theorem digitCh_toNat {d : Nat} (h : d < 10) : (digitCh d).toNat = 48 + d := by
  interval_cases d <;> decide

theorem digitCh_inj {a b : Nat} (ha : a < 10) (hb : b < 10)
    (h : digitCh a = digitCh b) : a = b := by
  have := congrArg Char.toNat h
  rw [digitCh_toNat ha, digitCh_toNat hb] at this
  omega

theorem natDigits_ne_nil (n : Nat) : natDigits n ≠ [] := by
  rw [natDigits_eq]
  split <;> simp

theorem natDigits_all_digit (n : Nat) : (natDigits n).all Char.isDigit = true := by
  induction n using Nat.strong_induction_on with
  | _ n ih =>
    rw [natDigits_eq]
    split
    · rename_i h
      simp [digitCh_isDigit h]
    · rename_i h
      have hmod : n % 10 < 10 := Nat.mod_lt n (by omega)
      have hdiv := ih (n / 10) (Nat.div_lt_self (by omega) (by omega))
      rw [List.all_append]
      simp [hdiv, digitCh_isDigit hmod]

theorem foldl_natDigits (n : Nat) :
    ∀ acc, (natDigits n).foldl (fun a c => a * 10 + (c.toNat - 48)) acc =
      acc * 10 ^ (natDigits n).length + n := by
  induction n using Nat.strong_induction_on with
  | _ n ih =>
    intro acc
    rw [natDigits_eq]
    split
    · rename_i h
      simp only [List.foldl_cons, List.foldl_nil, List.length_cons,
        List.length_nil, digitCh_toNat h, pow_one]
      omega
    · rename_i h
      have hlt := Nat.div_lt_self (show 0 < n by omega) (show 1 < 10 by omega)
      have hmod : n % 10 < 10 := Nat.mod_lt n (by omega)
      rw [List.foldl_append]
      simp only [List.foldl_cons, List.foldl_nil, List.length_append,
        List.length_cons, List.length_nil]
      rw [ih (n / 10) hlt acc]
      rw [digitCh_toNat hmod]
      have : acc * 10 ^ ((natDigits (n / 10)).length + (0 + 1)) =
          acc * 10 ^ (natDigits (n / 10)).length * 10 := by
        ring
      rw [this]
      omega

theorem parseNatDigits_natDigits (n : Nat) :
    parseNatDigits (natDigits n) = some n := by
  unfold parseNatDigits
  rw [if_pos ⟨natDigits_ne_nil n, natDigits_all_digit n⟩]
  rw [foldl_natDigits n 0]
  simp

theorem natDigits_no_underscore (n : Nat) :
    (natDigits n).all (fun c => c ≠ '_') = true := by
  have h := natDigits_all_digit n
  simp only [List.all_eq_true] at h ⊢
  intro c hc
  have := h c hc
  simp only [decide_eq_true_eq]
  intro hEq
  rw [hEq] at this
  simp [Char.isDigit] at this

theorem noDoubleUnderscore_of_all_digit (l : PyStr)
    (h : l.all Char.isDigit = true) :
    underscoresOk.noDoubleUnderscore l = true := by
  induction l with
  | nil => rfl
  | cons a t iht =>
    match t with
    | [] => rfl
    | b :: t' =>
      simp only [List.all_cons, Bool.and_eq_true] at h
      have hb : underscoresOk.noDoubleUnderscore (b :: t') = true := by
        apply iht
        simp [h.2.1, h.2.2]
      unfold underscoresOk.noDoubleUnderscore
      have ha : a ≠ '_' := by
        intro hEq
        rw [hEq] at h
        exact absurd h.1 (by decide)
      simp [ha, hb]

theorem underscoresOk_natDigits (n : Nat) :
    underscoresOk (natDigits n) = true := by
  have hall := natDigits_all_digit n
  have hne := natDigits_ne_nil n
  unfold underscoresOk
  match hl : natDigits n with
  | [] => exact absurd hl hne
  | a :: t =>
    rw [hl] at hall
    have hallMem : ∀ c ∈ a :: t, Char.isDigit c = true := by
      simpa only [List.all_eq_true] using hall
    have ha : a ≠ '_' := by
      intro hEq
      have := hallMem a (by simp)
      rw [hEq] at this
      exact absurd this (by decide)
    have hlast : (a :: t).getLast? ≠ some '_' := by
      match hg : (a :: t).getLast? with
      | none => simp
      | some c =>
        have hx : c ∈ (a :: t).getLast? := by rw [hg]; rfl
        obtain ⟨hne, hEq2⟩ := List.mem_getLast?_eq_getLast hx
        have hc : c ∈ a :: t := hEq2 ▸ List.getLast_mem hne
        have := hallMem c hc
        simp only [ne_eq, Option.some.injEq]
        intro hEq
        rw [hEq] at this
        exact absurd this (by decide)
    have hnd := noDoubleUnderscore_of_all_digit (a :: t) hall
    have hall' : (a :: t).all (fun c => c.isDigit || c = '_') = true := by
      simp only [List.all_eq_true] at hall ⊢
      intro c hc
      simp [hall c hc]
    simp [ha, hlast, hall', hnd]

theorem parseNatUnd_natDigits (n : Nat) :
    parseNatUnd (natDigits n) = some n := by
  unfold parseNatUnd
  rw [if_pos (underscoresOk_natDigits n)]
  have : (natDigits n).filter (· ≠ '_') = natDigits n := by
    apply List.filter_eq_self.mpr
    have h := natDigits_no_underscore n
    simp only [List.all_eq_true] at h
    intro c hc
    exact h c hc
  rw [this, parseNatDigits_natDigits]

theorem digit_not_whitespace {c : Char} (h : c.isDigit = true) :
    c.isWhitespace = false := by
  have hne : c ≠ ' ' ∧ c ≠ '\t' ∧ c ≠ '\x0d' ∧ c ≠ '\n' := by
    refine ⟨?_, ?_, ?_, ?_⟩ <;> (rintro rfl; exact absurd h (by decide))
  simp only [Char.isWhitespace, Bool.or_eq_false_iff, decide_eq_false_iff_not]
  exact ⟨⟨⟨hne.1, hne.2.1⟩, hne.2.2.1⟩, hne.2.2.2⟩

theorem dropWhile_eq_self_of_all {p : Char → Bool} {l : PyStr}
    (h : ∀ c ∈ l, p c = false) : l.dropWhile p = l := by
  cases l with
  | nil => rfl
  | cons a t =>
    rw [List.dropWhile_cons]
    simp [h a (by simp)]

theorem pyStrip_eq_self {l : PyStr}
    (h : ∀ c ∈ l, c.isWhitespace = false) : pyStrip l = l := by
  unfold pyStrip
  rw [dropWhile_eq_self_of_all h]
  rw [dropWhile_eq_self_of_all (by intro c hc; exact h c (by simpa using hc))]
  simp

theorem pyStrip_natDigits (n : Nat) : pyStrip (natDigits n) = natDigits n := by
  apply pyStrip_eq_self
  intro c hc
  have h := natDigits_all_digit n
  simp only [List.all_eq_true] at h
  exact digit_not_whitespace (h c hc)

theorem natDigits_head_not_sign (n : Nat) :
    (natDigits n).head? ≠ some '-' ∧ (natDigits n).head? ≠ some '+' := by
  have hall := natDigits_all_digit n
  match hl : natDigits n with
  | [] => exact absurd hl (natDigits_ne_nil n)
  | a :: t =>
    rw [hl] at hall
    simp only [List.all_cons, Bool.and_eq_true] at hall
    constructor <;>
      (simp only [List.head?_cons, ne_eq, Option.some.injEq];
       intro hEq; rw [hEq] at hall; exact absurd hall.1 (by decide))

/-- Parsing inverts rendering: Python `int(...)` applied to the decimal
rendering of an integer recovers that integer. -/
theorem parseIntPy_intRepr (i : Int) : parseIntPy (intRepr i) = some i := by
  unfold parseIntPy intRepr
  by_cases hi : i < 0
  · rw [if_pos hi]
    have hstrip : pyStrip ('-' :: natDigits i.natAbs) = '-' :: natDigits i.natAbs := by
      apply pyStrip_eq_self
      intro c hc
      rcases List.mem_cons.mp hc with h | h
      · rw [h]; decide
      · have hall := natDigits_all_digit i.natAbs
        simp only [List.all_eq_true] at hall
        exact digit_not_whitespace (hall c h)
    simp only [hstrip, List.head?_cons, List.drop_succ_cons, List.drop_zero,
      if_pos rfl]
    rw [parseNatUnd_natDigits]
    exact congrArg some (show -((i.natAbs : ℕ) : ℤ) = i by omega)
  · rw [if_neg hi]
    rw [pyStrip_natDigits]
    rw [if_neg (natDigits_head_not_sign i.natAbs).1,
        if_neg (natDigits_head_not_sign i.natAbs).2]
    rw [parseNatUnd_natDigits]
    exact congrArg some (show ((i.natAbs : ℕ) : ℤ) = i by omega)

/-- Rendering is injective (distinct integers render to distinct strings). -/
theorem intRepr_inj : Function.Injective intRepr := by
  intro a b h
  have := parseIntPy_intRepr a
  rw [h, parseIntPy_intRepr b] at this
  exact (Option.some.injEq _ _ ▸ this).symm

/-! ### Facts about the string helpers -/

theorem intRepr_ne_nil (i : Int) : intRepr i ≠ [] := by
  unfold intRepr
  split
  · simp
  · exact natDigits_ne_nil i.natAbs

theorem take11_voicemail (rest : PyStr) :
    (str "/voicemail/" ++ rest).take 11 = str "/voicemail/" := by
  rw [show (11 : Nat) = (str "/voicemail/").length from by decide]
  exact List.take_left _ _

theorem drop11_voicemail (rest : PyStr) :
    (str "/voicemail/" ++ rest).drop 11 = rest := by
  rw [show (11 : Nat) = (str "/voicemail/").length from by decide]
  exact List.drop_left _ _

theorem contains_slash (b e : PyStr) :
    (b ++ str "/" ++ e).contains '/' = true := by
  have hm : '/' ∈ b ++ str "/" ++ e := by
    simp [str, List.mem_append]
  simpa [List.contains] using List.elem_eq_true_of_mem hm

theorem pySplitOnce_append {sep : Char} {pre post : PyStr} (h : sep ∉ pre) :
    pySplitOnce sep (pre ++ sep :: post) = some (pre, post) := by
  induction pre with
  | nil => simp [pySplitOnce]
  | cons a t ih =>
    have ha : ¬ a = sep := fun hEq => h (hEq ▸ List.mem_cons_self a t)
    have ht : sep ∉ t := fun hmem => h (List.mem_cons_of_mem a hmem)
    simp only [List.cons_append, pySplitOnce, if_neg ha, List.append_eq]
    rw [ih ht]

theorem pySplitOnce_isSome {sep : Char} {l : PyStr} (h : sep ∈ l) :
    ∃ p, pySplitOnce sep l = some p := by
  induction l with
  | nil => cases h
  | cons a t ih =>
    by_cases ha : a = sep
    · exact ⟨([], t), by simp [pySplitOnce, ha]⟩
    · have ht : sep ∈ t := by
        cases List.mem_cons.mp h with
        | inl hEq => exact absurd hEq.symm ha
        | inr hmem => exact hmem
      obtain ⟨⟨l1, r1⟩, hp⟩ := ih ht
      exact ⟨(a :: l1, r1), by simp [pySplitOnce, ha, hp]⟩

/-! ### Claim C1: verification succeeds right after issuance, expiry is 403 -/

/-- C1: for every bucket, key, secret and validity duration, the link issued
by `generate_signed_url` carries `expires = now + validity_hours * 3600` and
the HMAC signature of `"{bucket}:{key}:{expires}"`, and (a) the produced URL
is exactly the base URL, the path of `mkLinkEvent`, and those two query
parameters; (b) `verify_signature` on the same tuple returns `true`
immediately; (c) once the current time strictly exceeds `expires`,
`handle_url_generation` on that link answers 403 Expired, whatever the object
store contains — for every renderer outcome `TsRender.ok d`, i.e. whenever
`datetime.fromtimestamp` can render the expiry, which holds for every link
issued at a nonnegative clock with a nonnegative validity.  (The signature
hypothesis records that a hex digest is a nonempty string.) -/
theorem claim_C1 (h : PyStr → PyStr → PyStr)
    (redirect_api_url bucket key secret_key : PyStr) (validity_hours now : Int)
    (hsig : signedSignature h bucket key secret_key
      (signedExpires now validity_hours) ≠ []) :
    generate_signed_url h redirect_api_url bucket key secret_key validity_hours now
        = redirect_api_url
          ++ (mkLinkEvent h bucket key secret_key validity_hours now).rawPath
          ++ str "?expires=" ++ intRepr (signedExpires now validity_hours)
          ++ str "&signature="
          ++ signedSignature h bucket key secret_key (signedExpires now validity_hours)
    ∧ verify_signature h bucket key (intRepr (signedExpires now validity_hours))
        (signedSignature h bucket key secret_key (signedExpires now validity_hours))
        secret_key = true
    ∧ ∀ (fmtTs : Int → TsRender) (head : PyStr → PyStr → HeadResult)
        (presign : PyStr → PyStr → PyStr) (now' : Int) (d : PyStr),
        now' > signedExpires now validity_hours →
        fmtTs (signedExpires now validity_hours) = TsRender.ok d →
        handle_url_generation h fmtTs secret_key now' head presign
            (mkLinkEvent h bucket key secret_key validity_hours now)
          = htmlResp 403 (str "<h1>403 Forbidden</h1><p>This link expired on "
              ++ d
              ++ str ".</p><p>Please contact support for a new link.</p>") := by
  refine ⟨?_, ?_, ?_⟩
  · simp [generate_signed_url, mkLinkEvent, List.append_assoc]
  · simp [verify_signature, signedSignature]
  · intro fmtTs head presign now' d hgt hfmt
    have hpath : (mkLinkEvent h bucket key secret_key validity_hours now).rawPath
        = str "/voicemail/" ++ (bucket ++ str "/" ++ pyQuote key) := by
      simp [mkLinkEvent, List.append_assoc]
    unfold handle_url_generation
    rw [hpath, take11_voicemail, drop11_voicemail]
    rw [if_neg (by simp)]
    have hcontain := contains_slash bucket (pyQuote key)
    have hmem : '/' ∈ bucket ++ str "/" ++ pyQuote key := by
      simp [str, List.mem_append]
    have hcond : ¬ ((bucket ++ str "/" ++ pyQuote key) = []
        ∨ ¬ ((bucket ++ str "/" ++ pyQuote key).contains '/')) := by
      rintro (hc | hc)
      · exact absurd (hc ▸ hmem) (List.not_mem_nil '/')
      · exact hc (by rw [hcontain])
    rw [if_neg hcond]
    obtain ⟨⟨b1, r1⟩, hsplit⟩ := pySplitOnce_isSome hmem
    rw [hsplit]
    show (if intRepr (signedExpires now validity_hours) = [] ∨
        signedSignature h bucket key secret_key (signedExpires now validity_hours) = []
      then _ else _) = _
    rw [if_neg (by
      rintro (hc | hc)
      · exact intRepr_ne_nil _ hc
      · exact hsig hc)]
    rw [parseIntPy_intRepr]
    show (if now' > signedExpires now validity_hours then _ else _) = _
    rw [if_pos hgt, hfmt]

/-- Closed instance of `claim_C1`: the issued link for bucket `b`, key `k`,
secret `s`, one hour of validity issued at time 0, checked at time 3601. -/
theorem claim_C1_witness :
    signedSignature (fun _ _ => str "aa") (str "b") (str "k") (str "s")
      (signedExpires 0 1) ≠ []
    ∧ handle_url_generation (fun _ _ => str "aa") (fun _ => TsRender.ok (str "D"))
        (str "s") 3601
        (fun _ _ => HeadResult.found) (fun _ _ => str "u")
        (mkLinkEvent (fun _ _ => str "aa") (str "b") (str "k") (str "s") 1 0)
      = htmlResp 403 (str "<h1>403 Forbidden</h1><p>This link expired on "
          ++ str "D"
          ++ str ".</p><p>Please contact support for a new link.</p>") := by
  have hsig : signedSignature (fun _ _ => str "aa") (str "b") (str "k") (str "s")
      (signedExpires 0 1) ≠ [] := by decide
  exact ⟨hsig,
    (claim_C1 (fun _ _ => str "aa") (str "u") (str "b") (str "k") (str "s") 1 0
      hsig).2.2 (fun _ => TsRender.ok (str "D")) (fun _ _ => HeadResult.found)
      (fun _ _ => str "u") 3601 (str "D") (by decide) rfl⟩

/-! ### Claim C2: any single-field change breaks verification -/

theorem sign_message_bucket_inj {b' b k e : PyStr}
    (h : sign_message b' k e = sign_message b k e) : b' = b := by
  unfold sign_message at h
  exact List.append_cancel_right (List.append_cancel_right
    (List.append_cancel_right (List.append_cancel_right h)))

theorem sign_message_key_inj {b k' k e : PyStr}
    (h : sign_message b k' e = sign_message b k e) : k' = k := by
  unfold sign_message at h
  have h1 := List.append_cancel_right (List.append_cancel_right h)
  exact List.append_cancel_left h1

theorem sign_message_expires_inj {b k e' e : PyStr}
    (h : sign_message b k e' = sign_message b k e) : e' = e := by
  unfold sign_message at h
  exact List.append_cancel_left h

/-- C2: bind the triple together.  With the keyed hash modelled as an
arbitrary function that is injective for the fixed secret (collision-freeness,
the idealization of HMAC-SHA256 this claim rests on), changing exactly one of
bucket, key or expires while keeping the issued signature makes
`verify_signature` return `false`: the recomputed digest differs because the
message `"{bucket}:{key}:{expires}"` differs. -/
theorem claim_C2 (h : PyStr → PyStr → PyStr) (secret_key : PyStr)
    (hinj : Function.Injective (h secret_key)) (bucket key : PyStr) (e : Int) :
    (∀ bucket', bucket' ≠ bucket →
      verify_signature h bucket' key (intRepr e)
        (signedSignature h bucket key secret_key e) secret_key = false)
    ∧ (∀ key', key' ≠ key →
      verify_signature h bucket key' (intRepr e)
        (signedSignature h bucket key secret_key e) secret_key = false)
    ∧ (∀ e' : Int, e' ≠ e →
      verify_signature h bucket key (intRepr e')
        (signedSignature h bucket key secret_key e) secret_key = false) := by
  refine ⟨?_, ?_, ?_⟩
  · intro bucket' hne
    unfold verify_signature signedSignature
    rw [beq_eq_false_iff_ne]
    intro hEq
    exact hne (sign_message_bucket_inj (hinj hEq.symm))
  · intro key' hne
    unfold verify_signature signedSignature
    rw [beq_eq_false_iff_ne]
    intro hEq
    exact hne (sign_message_key_inj (hinj hEq.symm))
  · intro e' hne
    unfold verify_signature signedSignature
    rw [beq_eq_false_iff_ne]
    intro hEq
    exact hne (intRepr_inj (sign_message_expires_inj (hinj hEq.symm)))

/-- Closed instance of `claim_C2` at bucket `b`, key `k`, expiry 5, secret
`s`, with the identity-in-message hash (injective, so the hypothesis is
satisfiable and discharged). -/
theorem claim_C2_witness :
    verify_signature (fun _ m => m) (str "c") (str "k") (intRepr 5)
      (signedSignature (fun _ m => m) (str "b") (str "k") (str "s") 5) (str "s") = false
    ∧ verify_signature (fun _ m => m) (str "b") (str "x") (intRepr 5)
      (signedSignature (fun _ m => m) (str "b") (str "k") (str "s") 5) (str "s") = false
    ∧ verify_signature (fun _ m => m) (str "b") (str "k") (intRepr 6)
      (signedSignature (fun _ m => m) (str "b") (str "k") (str "s") 5) (str "s") = false := by
  have hinj : Function.Injective ((fun (_ m : PyStr) => m) (str "s")) :=
    fun _ _ hab => hab
  obtain ⟨h1, h2, h3⟩ := claim_C2 (fun _ m => m) (str "s") hinj (str "b") (str "k") 5
  exact ⟨h1 (str "c") (by decide), h2 (str "x") (by decide), h3 6 (by decide)⟩

/-! ### Claim C3: malformed vs negative expiry -/

/-- Reduction of `handle_url_generation` on a well-shaped link event: with a
slash-free bucket and both query parameters present and nonempty, the handler
reaches the expiry/signature decision tree on `(bucket, unquote enc)`. -/
theorem handle_url_reduce (h : PyStr → PyStr → PyStr) (fmtTs : Int → TsRender)
    (secret : PyStr) (now : Int) (head : PyStr → PyStr → HeadResult)
    (presign : PyStr → PyStr → PyStr) (bucket enc expires sig : PyStr)
    (hb : '/' ∉ bucket) (hexp : expires ≠ []) (hsg : sig ≠ []) :
    handle_url_generation h fmtTs secret now head presign
      ⟨str "/voicemail/" ++ bucket ++ str "/" ++ enc, some expires, some sig⟩
    = match parseIntPy expires with
      | none =>
        htmlResp 400 (str "<h1>400 Bad Request</h1><p>Invalid expiration timestamp</p>")
      | some expires_timestamp =>
        if now > expires_timestamp then
          match fmtTs expires_timestamp with
          | TsRender.ok expires_date =>
            htmlResp 403 (str "<h1>403 Forbidden</h1><p>This link expired on "
              ++ expires_date
              ++ str ".</p><p>Please contact support for a new link.</p>")
          | TsRender.valueError =>
            htmlResp 400 (str "<h1>400 Bad Request</h1><p>Invalid expiration timestamp</p>")
          | TsRender.fatal =>
            htmlResp 500 (str "<h1>500 Internal Server Error</h1><p>Failed to generate URL</p>")
        else if secret = [] then
          htmlResp 500 (str "<h1>500 Internal Server Error</h1><p>Server configuration error</p>")
        else if verify_signature h bucket (pyUnquote enc) expires sig secret = false then
          htmlResp 403 (str "<h1>403 Forbidden</h1><p>Invalid signature. This link may have been tampered with.</p>")
        else
          match head bucket (pyUnquote enc) with
          | HeadResult.notFound =>
            htmlResp 404 (str "<h1>404 Not Found</h1><p>Recording not found. It may have been deleted.</p>")
          | HeadResult.failure _ =>
            htmlResp 500 (str "<h1>500 Internal Server Error</h1><p>Failed to generate URL</p>")
          | HeadResult.found => redirectResp (presign bucket (pyUnquote enc)) := by
  have hpath : str "/voicemail/" ++ bucket ++ str "/" ++ enc
      = str "/voicemail/" ++ (bucket ++ str "/" ++ enc) := by
    simp [List.append_assoc]
  have hmem : '/' ∈ bucket ++ str "/" ++ enc := by
    simp [str, List.mem_append]
  have hcontain := contains_slash bucket enc
  have hcons : bucket ++ str "/" ++ enc = bucket ++ '/' :: enc := by
    simp [str, List.append_assoc]
  have hcond : ¬ ((bucket ++ str "/" ++ enc) = []
      ∨ ¬ ((bucket ++ str "/" ++ enc).contains '/')) := by
    rintro (hc | hc)
    · exact absurd (hc ▸ hmem) (List.not_mem_nil '/')
    · exact hc (by rw [hcontain])
  have hcond2 : ¬ (expires = [] ∨ sig = []) := by
    rintro (hc | hc)
    · exact hexp hc
    · exact hsg hc
  unfold handle_url_generation
  simp only
  rw [hpath, take11_voicemail, drop11_voicemail]
  rw [if_neg (by simp)]
  rw [if_neg hcond]
  rw [hcons, pySplitOnce_append hb]
  exact if_neg hcond2

/-- C3 counterexample: `"-1"` is not a non-negative integer, yet the handler
answers 403 Expired, not 400 MalformedExpiry — Python `int("-1")` parses, and
`datetime.fromtimestamp(-1)` renders (year 1969), here the renderer outcome
`TsRender.ok`. -/
theorem claim_C3_counterexample :
    parseIntPy (str "-1") = some (-1)
    ∧ handle_url_generation (fun _ _ => str "aa") (fun _ => TsRender.ok (str "D"))
        (str "s") 100
        (fun _ _ => HeadResult.found) (fun _ _ => str "u")
        ⟨str "/voicemail/b/k", some (str "-1"), some (str "sig")⟩
      = htmlResp 403 (str "<h1>403 Forbidden</h1><p>This link expired on D.</p><p>Please contact support for a new link.</p>")
    ∧ handle_url_generation (fun _ _ => str "aa") (fun _ => TsRender.ok (str "D"))
        (str "s") 100
        (fun _ _ => HeadResult.found) (fun _ _ => str "u")
        ⟨str "/voicemail/b/k", some (str "-1"), some (str "sig")⟩
      ≠ htmlResp 400 (str "<h1>400 Bad Request</h1><p>Invalid expiration timestamp</p>") := by
  refine ⟨by decide, by decide, by decide⟩

/-- C3 as amended: an `expires` parameter that does not parse as a (possibly
signed) integer yields 400 Invalid expiration timestamp.  A negative integer
parses, so it is not routed to the malformed-expiry response as such: when
the current time exceeds the parsed value, the outcome follows the
`datetime.fromtimestamp` rendering of the timestamp — 403 Expired when it
renders (e.g. `-1`), still 400 Invalid expiration timestamp when it raises
`ValueError` (timestamps before year 1, e.g. `-100000000000`), and the
generic 500 when it raises `OverflowError`/`OSError`. -/
theorem claim_C3 (h : PyStr → PyStr → PyStr) (fmtTs : Int → TsRender)
    (secret : PyStr) (now : Int) (head : PyStr → PyStr → HeadResult)
    (presign : PyStr → PyStr → PyStr) (bucket enc expires sig : PyStr)
    (hb : '/' ∉ bucket) (hexp : expires ≠ []) (hsg : sig ≠ []) :
    (parseIntPy expires = none →
      handle_url_generation h fmtTs secret now head presign
        ⟨str "/voicemail/" ++ bucket ++ str "/" ++ enc, some expires, some sig⟩
      = htmlResp 400 (str "<h1>400 Bad Request</h1><p>Invalid expiration timestamp</p>"))
    ∧ (∀ (e : Int) (d : PyStr), parseIntPy expires = some e → now > e →
      fmtTs e = TsRender.ok d →
      handle_url_generation h fmtTs secret now head presign
        ⟨str "/voicemail/" ++ bucket ++ str "/" ++ enc, some expires, some sig⟩
      = htmlResp 403 (str "<h1>403 Forbidden</h1><p>This link expired on "
          ++ d ++ str ".</p><p>Please contact support for a new link.</p>"))
    ∧ (∀ e : Int, parseIntPy expires = some e → now > e →
      fmtTs e = TsRender.valueError →
      handle_url_generation h fmtTs secret now head presign
        ⟨str "/voicemail/" ++ bucket ++ str "/" ++ enc, some expires, some sig⟩
      = htmlResp 400 (str "<h1>400 Bad Request</h1><p>Invalid expiration timestamp</p>"))
    ∧ (∀ e : Int, parseIntPy expires = some e → now > e →
      fmtTs e = TsRender.fatal →
      handle_url_generation h fmtTs secret now head presign
        ⟨str "/voicemail/" ++ bucket ++ str "/" ++ enc, some expires, some sig⟩
      = htmlResp 500 (str "<h1>500 Internal Server Error</h1><p>Failed to generate URL</p>")) := by
  refine ⟨?_, ?_, ?_, ?_⟩
  · intro hnone
    rw [handle_url_reduce h fmtTs secret now head presign bucket enc expires sig hb hexp hsg]
    rw [hnone]
  · intro e d he hgt hfmt
    rw [handle_url_reduce h fmtTs secret now head presign bucket enc expires sig hb hexp hsg]
    rw [he]
    simp only [if_pos hgt]
    rw [hfmt]
  · intro e he hgt hfmt
    rw [handle_url_reduce h fmtTs secret now head presign bucket enc expires sig hb hexp hsg]
    rw [he]
    simp only [if_pos hgt]
    rw [hfmt]
  · intro e he hgt hfmt
    rw [handle_url_reduce h fmtTs secret now head presign bucket enc expires sig hb hexp hsg]
    rw [he]
    simp only [if_pos hgt]
    rw [hfmt]

/-- Closed instance of `claim_C3`: `expires = "xx"` gives 400;
`expires = "-1"` at time 100 gives 403 Expired; and with the renderer
mirroring CPython's year-1 bound, `expires = "-100000000000"` (before year 1,
where `fromtimestamp` raises `ValueError`) gives 400 again. -/
theorem claim_C3_witness :
    handle_url_generation (fun _ _ => str "aa")
        (fun t => if t < -62135596800 then TsRender.valueError
          else TsRender.ok (str "D"))
        (str "s") 100
        (fun _ _ => HeadResult.found) (fun _ _ => str "u")
        ⟨str "/voicemail/" ++ str "b" ++ str "/" ++ str "k", some (str "xx"), some (str "sig")⟩
      = htmlResp 400 (str "<h1>400 Bad Request</h1><p>Invalid expiration timestamp</p>")
    ∧ handle_url_generation (fun _ _ => str "aa")
        (fun t => if t < -62135596800 then TsRender.valueError
          else TsRender.ok (str "D"))
        (str "s") 100
        (fun _ _ => HeadResult.found) (fun _ _ => str "u")
        ⟨str "/voicemail/" ++ str "b" ++ str "/" ++ str "k", some (str "-1"), some (str "sig")⟩
      = htmlResp 403 (str "<h1>403 Forbidden</h1><p>This link expired on "
          ++ str "D" ++ str ".</p><p>Please contact support for a new link.</p>")
    ∧ handle_url_generation (fun _ _ => str "aa")
        (fun t => if t < -62135596800 then TsRender.valueError
          else TsRender.ok (str "D"))
        (str "s") 100
        (fun _ _ => HeadResult.found) (fun _ _ => str "u")
        ⟨str "/voicemail/" ++ str "b" ++ str "/" ++ str "k",
         some (str "-100000000000"), some (str "sig")⟩
      = htmlResp 400 (str "<h1>400 Bad Request</h1><p>Invalid expiration timestamp</p>") := by
  refine ⟨?_, ?_, ?_⟩
  · exact (claim_C3 (fun _ _ => str "aa")
      (fun t => if t < -62135596800 then TsRender.valueError
        else TsRender.ok (str "D")) (str "s") 100
      (fun _ _ => HeadResult.found) (fun _ _ => str "u") (str "b") (str "k")
      (str "xx") (str "sig") (by decide) (by decide) (by decide)).1 (by decide)
  · exact (claim_C3 (fun _ _ => str "aa")
      (fun t => if t < -62135596800 then TsRender.valueError
        else TsRender.ok (str "D")) (str "s") 100
      (fun _ _ => HeadResult.found) (fun _ _ => str "u") (str "b") (str "k")
      (str "-1") (str "sig") (by decide) (by decide) (by decide)).2.1 (-1)
      (str "D") (by decide) (by decide) (by decide)
  · exact (claim_C3 (fun _ _ => str "aa")
      (fun t => if t < -62135596800 then TsRender.valueError
        else TsRender.ok (str "D")) (str "s") 100
      (fun _ _ => HeadResult.found) (fun _ _ => str "u") (str "b") (str "k")
      (str "-100000000000") (str "sig") (by decide) (by decide)
      (by decide)).2.2.1 (-100000000000) (by decide) (by decide) (by decide)

/-! ### Claim C4: nearest-offset-first probing -/

/-- C4: within every window the probe sequence is ordered by non-decreasing
absolute minute offset (first conjunct, for every half-width, anchor and
formatter), and in the concrete 5-minute-window scenario whose existence
check succeeds only at offset `+2`, the probed keys are exactly those of
offsets `0, -1, +1, -2, +2` — none of absolute value above 2 — and the search
returns the `+2` candidate. -/
theorem claim_C4 :
    (∀ (fmtDay fmtTime : Int → PyStr) (bucket pfx icid : PyStr) (now : Int)
      (w : Nat), List.Pairwise candLe
        (sortedCandidates fmtDay fmtTime bucket pfx icid now w))
    ∧ find_recording_in_s3
        (fun k => if k = str "p/ivr/2/c_2_UTC.wav" then HeadResult.found
          else HeadResult.notFound)
        intRepr intRepr (str "b") (str "p") (str "c") 0
      = (Except.ok (some ⟨str "p/ivr/2/c_2_UTC.wav", str "s3://b/p/ivr/2/c_2_UTC.wav",
          str "2", 2⟩),
         [str "p/ivr/0/c_0_UTC.wav", str "p/ivr/-1/c_-1_UTC.wav",
          str "p/ivr/1/c_1_UTC.wav", str "p/ivr/-2/c_-2_UTC.wav",
          str "p/ivr/2/c_2_UTC.wav"]) := by
  constructor
  · intro fmtDay fmtTime bucket pfx icid now w
    exact List.sorted_insertionSort candLe
      (generate_s3_uris_with_time_window fmtDay fmtTime bucket pfx icid now w)
  · decide

/-! ### Claim C5: channel-mode preview assembly -/

/-- C5: in channel mode (a) a punctuation token arriving when the channel has
accumulated words is appended directly to the most recent word, with no
separating space; (b) the normalization removes the space before a comma (the
spec's `"hello ," -> "hello,"` example); (c) for channels
`[WORD "hello", PUNCTUATION ","]` and `[WORD "bye"]` the compiled preview is
`"hello, bye"` — per-channel words joined by single spaces and channels joined
by single spaces. -/
theorem claim_C5 :
    (∀ (items : List TransItem) (p : PyStr),
      items.foldl channelStep [] ≠ [] →
      (items ++ [(⟨str "punctuation", [p], none, none⟩ : TransItem)]).foldl channelStep []
        = (items.foldl channelStep []).dropLast
          ++ [(items.foldl channelStep []).getLastD [] ++ p])
    ∧ pyReplace (str "hello ,") (str " ,") (str ",") = str "hello,"
    ∧ build_transcription_preview
        ⟨[], some [⟨[⟨str "pronunciation", [str "hello"], none, none⟩,
                     ⟨str "punctuation", [str ","], none, none⟩]⟩,
                   ⟨[⟨str "pronunciation", [str "bye"], none, none⟩]⟩], none, []⟩
        (str "channel") 700
      = str "hello, bye" := by
  refine ⟨?_, by decide, by decide⟩
  intro items p hne
  rw [List.foldl_append]
  show channelStep (items.foldl channelStep [])
    (⟨str "punctuation", [p], none, none⟩ : TransItem) = _
  unfold channelStep
  rw [show (⟨str "punctuation", [p], none, none⟩ : TransItem).type
    = str "punctuation" from rfl]
  rw [if_neg (by decide)]
  rw [if_pos ⟨rfl, hne⟩]
  rfl

/-- Closed instance of `claim_C5`'s punctuation-attachment conjunct at the
channel `[WORD "hello"]` receiving `","`. -/
theorem claim_C5_witness :
    (([⟨str "pronunciation", [str "hello"], none, none⟩] : List TransItem)
        ++ [(⟨str "punctuation", [str ","], none, none⟩ : TransItem)]).foldl channelStep []
      = (([⟨str "pronunciation", [str "hello"], none, none⟩] : List TransItem).foldl
          channelStep []).dropLast
        ++ [(([⟨str "pronunciation", [str "hello"], none, none⟩] : List TransItem).foldl
          channelStep []).getLastD [] ++ str ","] :=
  claim_C5.1 [⟨str "pronunciation", [str "hello"], none, none⟩] (str ",")
    (by decide)

/-! ### Claim C6: best-effort duration -/

theorem durationScan_eq_find (l : List TransItem) :
    durationScan l =
      match l.find? (fun it => !(it.end_time.getD []).isEmpty) with
      | some it => (parseFloatPy (it.end_time.getD [])).getD 0
      | none => 0 := by
  induction l with
  | nil => rfl
  | cons it rest ih =>
    by_cases hp : (!(it.end_time.getD ([] : PyStr)).isEmpty) = true
    · have hfind : List.find? (fun x => !(x.end_time.getD ([] : PyStr)).isEmpty)
          (it :: rest) = some it := by
        simp only [List.find?_cons]
        simp [hp]
      rw [hfind]
      have hsome : ∃ s, it.end_time = some s ∧ s ≠ [] := by
        match hend : it.end_time with
        | none => rw [hend] at hp; simp at hp
        | some s =>
          refine ⟨s, rfl, ?_⟩
          rw [hend] at hp
          simpa using hp
      obtain ⟨s, hend, hs⟩ := hsome
      simp [durationScan, hend, hs]
    · have hpf : (!(it.end_time.getD ([] : PyStr)).isEmpty) = false := by
        simpa using hp
      have hfind : List.find? (fun x => !(x.end_time.getD ([] : PyStr)).isEmpty)
          (it :: rest)
          = List.find? (fun x => !(x.end_time.getD ([] : PyStr)).isEmpty) rest := by
        simp only [List.find?_cons]
        simp [hpf]
      rw [hfind, ← ih]
      match hend : it.end_time with
      | none => simp [durationScan, hend]
      | some s =>
        have hs : s = [] := by
          rw [hend] at hpf
          simpa using hpf
        simp [durationScan, hend, hs]

/-- C6: `get_actual_recording_duration` is total by construction and returns
the parsed end time of the last item (scanning backward) whose end time is
present and nonempty (first conjunct, the closed form); it returns 0 when no
item has such an end time (second conjunct); concretely it yields `12.4` for
a stream ending in an item timed `"12.4"` followed by untimed tokens, 0 for
an empty stream, and 0 — instead of raising — when the last end time does
not parse as a float. -/
theorem claim_C6 :
    (∀ results : TransResults,
      get_actual_recording_duration results =
        match results.items.reverse.find?
            (fun it => !(it.end_time.getD []).isEmpty) with
        | some it => (parseFloatPy (it.end_time.getD [])).getD 0
        | none => 0)
    ∧ (∀ results : TransResults,
        (∀ it ∈ results.items, (it.end_time.getD []).isEmpty) →
        get_actual_recording_duration results = 0)
    ∧ get_actual_recording_duration
        ⟨[], none, none,
         [⟨str "pronunciation", [str "hi"], some (str "0.0"), some (str "12.4")⟩,
          ⟨str "punctuation", [str "."], none, none⟩]⟩ = 62/5
    ∧ get_actual_recording_duration ⟨[], none, none, []⟩ = 0
    ∧ get_actual_recording_duration
        ⟨[], none, none,
         [⟨str "pronunciation", [], none, some (str "abc")⟩]⟩ = 0 := by
  refine ⟨?_, ?_, ?_, by decide, by decide⟩
  · intro results
    exact durationScan_eq_find results.items.reverse
  · intro results hall
    show durationScan results.items.reverse = 0
    rw [durationScan_eq_find results.items.reverse]
    have hnone : results.items.reverse.find?
        (fun it => !(it.end_time.getD []).isEmpty) = none := by
      rw [List.find?_eq_none]
      intro it hmem
      have := hall it (List.mem_reverse.mp hmem)
      simp [this]
    rw [hnone]
  · have h : parseFloatPy (str "12.4")
        = some ((1 : ℚ) * ((12 : ℚ) + (4 : ℚ) / ((10 : ℚ) ^ 1))) := by rfl
    show durationScan _ = 62/5
    have h2 : ([⟨str "pronunciation", [str "hi"], some (str "0.0"),
          some (str "12.4")⟩,
        ⟨str "punctuation", [str "."], none, none⟩] : List TransItem).reverse =
        [⟨str "punctuation", [str "."], none, none⟩,
         ⟨str "pronunciation", [str "hi"], some (str "0.0"), some (str "12.4")⟩] := by
      decide
    rw [h2]
    simp only [durationScan]
    rw [if_pos (show (str "12.4" : PyStr) ≠ [] by decide)]
    rw [h]
    norm_num

/-- Closed instance of `claim_C6`'s all-untimed conjunct: a stream whose only
item has no end time yields duration 0. -/
theorem claim_C6_witness :
    get_actual_recording_duration
      ⟨[], none, none, [⟨str "punctuation", [str "."], none, none⟩]⟩ = 0 :=
  claim_C6.2.1 ⟨[], none, none, [⟨str "punctuation", [str "."], none, none⟩]⟩
    (by decide)

/-! ### Claim C7: bounded polling with a distinct timeout -/

theorem waitFrom_timeout : ∀ (r i : Nat) (status : Nat → PyStr),
    (∀ j, i ≤ j → j ≤ i + r →
      status j ≠ str "COMPLETED" ∧ status j ≠ str "FAILED") →
    waitFrom status i r
      = (Except.error (str "Transcription job timed out"), i + r + 1) := by
  intro r
  induction r with
  | zero =>
    intro i status hnt
    have h0 := hnt i (le_refl i) (by omega)
    have hcond : ¬ (status i = str "COMPLETED" ∨ status i = str "FAILED") := by
      rintro (hc | hc)
      · exact h0.1 hc
      · exact h0.2 hc
    unfold waitFrom
    rw [if_neg hcond]
  | succ rr ih =>
    intro i status hnt
    have h0 := hnt i (le_refl i) (by omega)
    have hcond : ¬ (status i = str "COMPLETED" ∨ status i = str "FAILED") := by
      rintro (hc | hc)
      · exact h0.1 hc
      · exact h0.2 hc
    unfold waitFrom
    rw [if_neg hcond]
    show waitFrom status (i + 1) rr = _
    rw [ih (i + 1) status (fun j hj1 hj2 => hnt j (by omega) (by omega))]
    have harith : i + 1 + rr + 1 = i + (rr + 1) + 1 := by omega
    rw [harith]

theorem waitFrom_congr : ∀ (r i : Nat) (s t : Nat → PyStr),
    (∀ j, i ≤ j → j ≤ i + r → s j = t j) →
    waitFrom s i r = waitFrom t i r := by
  intro r
  induction r with
  | zero =>
    intro i s t hag
    unfold waitFrom
    rw [hag i (le_refl i) (by omega)]
  | succ rr ih =>
    intro i s t hag
    unfold waitFrom
    rw [hag i (le_refl i) (by omega)]
    by_cases hterm : t i = str "COMPLETED" ∨ t i = str "FAILED"
    · rw [if_pos hterm, if_pos hterm]
    · rw [if_neg hterm, if_neg hterm]
      show waitFrom s (i + 1) rr = waitFrom t (i + 1) rr
      exact ih (i + 1) s t (fun j hj1 hj2 => hag j (by omega) (by omega))

/-- C7: against a status source that never reports COMPLETED or FAILED,
`wait_for_transcription` terminates with the distinct timeout outcome after
exactly 200 polls — `600 / 3` polls at the 3-second interval, the last one
when total waiting reaches the 600-second maximum (first conjunct); it never
inspects the status beyond poll 199 (second conjunct: the outcome depends
only on the first 200 polls); the two constants are 600 and 3 (remaining
conjuncts). -/
theorem claim_C7 :
    (∀ status : Nat → PyStr,
      (∀ i, i < 200 → status i ≠ str "COMPLETED" ∧ status i ≠ str "FAILED") →
      wait_for_transcription status
        = (Except.error (str "Transcription job timed out"), 200))
    ∧ (∀ s t : Nat → PyStr, (∀ i, i < 200 → s i = t i) →
      wait_for_transcription s = wait_for_transcription t)
    ∧ TRANSCRIBE_MAX_WAIT_SECS = 600 ∧ TRANSCRIBE_POLL_SECS = 3 := by
  refine ⟨?_, ?_, rfl, rfl⟩
  · intro status h
    show waitFrom status 0 199 = _
    exact waitFrom_timeout 199 0 status (fun j hj1 hj2 => h j (by omega))
  · intro s t h
    show waitFrom s 0 199 = waitFrom t 0 199
    exact waitFrom_congr 199 0 s t (fun j hj1 hj2 => h j (by omega))

/-- Closed instance of `claim_C7`: a status source stuck on IN_PROGRESS times
out after exactly 200 polls. -/
theorem claim_C7_witness :
    wait_for_transcription (fun _ => str "IN_PROGRESS")
      = (Except.error (str "Transcription job timed out"), 200) :=
  claim_C7.1 (fun _ => str "IN_PROGRESS") (fun _ _ =>
    ⟨show (str "IN_PROGRESS" : PyStr) ≠ str "COMPLETED" by decide,
     show (str "IN_PROGRESS" : PyStr) ≠ str "FAILED" by decide⟩)

/-! ### Claim C9: signature failures do not reveal object existence -/

/-- C9: a link-resolution request that reaches the signature check and fails
it (parameters present, expiry parsed and not in the past, secret configured,
`verify_signature` false on the decoded key) is answered with the one fixed
403 Invalid-signature response for every object-store oracle and presigner —
the signature is checked before any existence check, so the rejection is
independent of whether the object exists. -/
theorem claim_C9 (h : PyStr → PyStr → PyStr) (fmtTs : Int → TsRender)
    (secret : PyStr) (now e : Int) (bucket enc expires sig : PyStr)
    (hb : '/' ∉ bucket) (hexp : expires ≠ []) (hsg : sig ≠ [])
    (hparse : parseIntPy expires = some e) (hnow : ¬ now > e)
    (hsec : ¬ secret = [])
    (hver : verify_signature h bucket (pyUnquote enc) expires sig secret = false) :
    ∀ (head head' : PyStr → PyStr → HeadResult)
      (presign presign' : PyStr → PyStr → PyStr),
      handle_url_generation h fmtTs secret now head presign
          ⟨str "/voicemail/" ++ bucket ++ str "/" ++ enc, some expires, some sig⟩
        = htmlResp 403 (str "<h1>403 Forbidden</h1><p>Invalid signature. This link may have been tampered with.</p>")
      ∧ handle_url_generation h fmtTs secret now head presign
          ⟨str "/voicemail/" ++ bucket ++ str "/" ++ enc, some expires, some sig⟩
        = handle_url_generation h fmtTs secret now head' presign'
          ⟨str "/voicemail/" ++ bucket ++ str "/" ++ enc, some expires, some sig⟩ := by
  have hmain : ∀ (hd : PyStr → PyStr → HeadResult) (ps : PyStr → PyStr → PyStr),
      handle_url_generation h fmtTs secret now hd ps
          ⟨str "/voicemail/" ++ bucket ++ str "/" ++ enc, some expires, some sig⟩
        = htmlResp 403 (str "<h1>403 Forbidden</h1><p>Invalid signature. This link may have been tampered with.</p>") := by
    intro hd ps
    rw [handle_url_reduce h fmtTs secret now hd ps bucket enc expires sig hb hexp hsg]
    rw [hparse]
    simp only [if_neg hnow, if_neg hsec, if_pos hver]
  intro head head' presign presign'
  exact ⟨hmain head presign, (hmain head presign).trans (hmain head' presign').symm⟩

/-- Closed instance of `claim_C9`: a tampered signature `"bb"` is rejected
with the same 403 whether the oracle reports the object present or absent. -/
theorem claim_C9_witness :
    handle_url_generation (fun _ _ => str "aa") (fun _ => TsRender.ok (str "D")) (str "s") 5
        (fun _ _ => HeadResult.found) (fun _ _ => str "u")
        ⟨str "/voicemail/" ++ str "b" ++ str "/" ++ str "k", some (str "10"), some (str "bb")⟩
      = htmlResp 403 (str "<h1>403 Forbidden</h1><p>Invalid signature. This link may have been tampered with.</p>")
    ∧ handle_url_generation (fun _ _ => str "aa") (fun _ => TsRender.ok (str "D")) (str "s") 5
        (fun _ _ => HeadResult.found) (fun _ _ => str "u")
        ⟨str "/voicemail/" ++ str "b" ++ str "/" ++ str "k", some (str "10"), some (str "bb")⟩
      = handle_url_generation (fun _ _ => str "aa") (fun _ => TsRender.ok (str "D")) (str "s") 5
        (fun _ _ => HeadResult.notFound) (fun _ _ => str "v")
        ⟨str "/voicemail/" ++ str "b" ++ str "/" ++ str "k", some (str "10"), some (str "bb")⟩ := by
  have h9 := claim_C9 (fun _ _ => str "aa") (fun _ => TsRender.ok (str "D")) (str "s") 5 10
    (str "b") (str "k") (str "10") (str "bb") (by decide) (by decide) (by decide)
    (by decide) (by decide) (by decide) (by decide)
  exact ⟨(h9 (fun _ _ => HeadResult.found) (fun _ _ => HeadResult.notFound)
      (fun _ _ => str "u") (fun _ _ => str "v")).1,
    (h9 (fun _ _ => HeadResult.found) (fun _ _ => HeadResult.notFound)
      (fun _ _ => str "u") (fun _ _ => str "v")).2⟩

/-! ### Claim C8: missing recipient rejects before any collaborator call -/

/-- C8: with the required environment present, every processing event whose
attributes lack a (nonempty) `emailRecipient` is answered with a
`statusCode = 400` outcome and an empty collaborator trace: no existence
check, no transcription start or poll, and no email send happens before the
rejection.  (Events additionally missing one of the `[]`-indexed contact
fields also return 400, still with no collaborator call.) -/
theorem claim_C8 (ctx : ProcCtx) (collab : ProcCollab) (env : EnvCfg)
    (cd : ContactData)
    (henv : ∃ v, validate_environment env = Except.ok v)
    (hmiss : cd.attributes.emailRecipient = none
      ∨ cd.attributes.emailRecipient = some []) :
    (handle_voicemail_processing ctx collab env cd).1.statusCode = 400
    ∧ (handle_voicemail_processing ctx collab env cd).2 = [] := by
  obtain ⟨⟨bp, ue, es, rwt⟩, hv⟩ := henv
  unfold handle_voicemail_processing
  rw [hv]
  cases hic : cd.initialContactId with
  | none => exact ⟨rfl, rfl⟩
  | some icid =>
    cases hcid : cd.contactId with
    | none => exact ⟨rfl, rfl⟩
    | some cid =>
      cases harn : cd.instanceARN with
      | none => exact ⟨rfl, rfl⟩
      | some arn =>
        rcases hmiss with hm | hm <;> simp [hm, procMsg]

/-- Closed instance of `claim_C8`: a fully configured environment, a contact
record with every documented field but no `emailRecipient` attribute. -/
theorem claim_C8_witness :
    (handle_voicemail_processing
      ⟨fun _ _ => str "aa", 0, 0, intRepr, intRepr⟩
      ⟨some (str "r"), fun _ _ => HeadResult.notFound, fun _ => StartOutcome.started,
       fun _ => str "COMPLETED", Except.ok ⟨[], none, none, []⟩,
       fun _ => Except.ok (str "mid")⟩
      ⟨some (str "b/p"), some (str "e"), none, none, some (str "https://x"), some (str "s")⟩
      ⟨some (str "i"), some (str "c"), some (str "arn:aws:connect:r:x"), some (str "+1"),
       ⟨none, none⟩⟩).1.statusCode = 400
    ∧ (handle_voicemail_processing
      ⟨fun _ _ => str "aa", 0, 0, intRepr, intRepr⟩
      ⟨some (str "r"), fun _ _ => HeadResult.notFound, fun _ => StartOutcome.started,
       fun _ => str "COMPLETED", Except.ok ⟨[], none, none, []⟩,
       fun _ => Except.ok (str "mid")⟩
      ⟨some (str "b/p"), some (str "e"), none, none, some (str "https://x"), some (str "s")⟩
      ⟨some (str "i"), some (str "c"), some (str "arn:aws:connect:r:x"), some (str "+1"),
       ⟨none, none⟩⟩).2 = [] :=
  claim_C8 ⟨fun _ _ => str "aa", 0, 0, intRepr, intRepr⟩
    ⟨some (str "r"), fun _ _ => HeadResult.notFound, fun _ => StartOutcome.started,
     fun _ => str "COMPLETED", Except.ok ⟨[], none, none, []⟩,
     fun _ => Except.ok (str "mid")⟩
    ⟨some (str "b/p"), some (str "e"), none, none, some (str "https://x"), some (str "s")⟩
    ⟨some (str "i"), some (str "c"), some (str "arn:aws:connect:r:x"), some (str "+1"),
     ⟨none, none⟩⟩
    ⟨(str "b/p", 604800, str "e", 70), by decide⟩ (Or.inl rfl)

/-! ### Claim C10: the undocumented ContactId requirement -/

/-- C10: the processing handler indexes `Details.ContactData["ContactId"]`
even though the documented event structure lists only `InitialContactId`,
`CustomerEndpoint`, `InstanceARN` and `Attributes`; with the environment
valid, every event carrying all documented fields but no `ContactId` is
rejected with 400 `Missing contact data: 'ContactId'` and an empty
collaborator trace. -/
theorem claim_C10 (ctx : ProcCtx) (collab : ProcCollab) (env : EnvCfg)
    (cd : ContactData)
    (henv : ∃ v, validate_environment env = Except.ok v)
    (hicid : ∃ x, cd.initialContactId = some x)
    (hcid : cd.contactId = none)
    (_harn : ∃ x, cd.instanceARN = some x)
    (_haddr : ∃ x, cd.customerEndpointAddress = some x)
    (_hrec : ∃ r, cd.attributes.emailRecipient = some r ∧ r ≠ []) :
    handle_voicemail_processing ctx collab env cd
      = (procMsg 400 (str "Missing contact data: 'ContactId'"), []) := by
  obtain ⟨⟨bp, ue, es, rwt⟩, hv⟩ := henv
  obtain ⟨icid, hic⟩ := hicid
  unfold handle_voicemail_processing
  rw [hv, hic, hcid]

/-- Closed instance of `claim_C10`: all documented fields present,
`ContactId` absent. -/
theorem claim_C10_witness :
    handle_voicemail_processing
      ⟨fun _ _ => str "aa", 0, 0, intRepr, intRepr⟩
      ⟨some (str "r"), fun _ _ => HeadResult.notFound, fun _ => StartOutcome.started,
       fun _ => str "COMPLETED", Except.ok ⟨[], none, none, []⟩,
       fun _ => Except.ok (str "mid")⟩
      ⟨some (str "b/p"), some (str "e"), none, none, some (str "https://x"), some (str "s")⟩
      ⟨some (str "i"), none, some (str "arn:aws:connect:r:x"), some (str "+1"),
       ⟨some (str "to@x"), none⟩⟩
      = (procMsg 400 (str "Missing contact data: 'ContactId'"), []) :=
  claim_C10 ⟨fun _ _ => str "aa", 0, 0, intRepr, intRepr⟩
    ⟨some (str "r"), fun _ _ => HeadResult.notFound, fun _ => StartOutcome.started,
     fun _ => str "COMPLETED", Except.ok ⟨[], none, none, []⟩,
     fun _ => Except.ok (str "mid")⟩
    ⟨some (str "b/p"), some (str "e"), none, none, some (str "https://x"), some (str "s")⟩
    ⟨some (str "i"), none, some (str "arn:aws:connect:r:x"), some (str "+1"),
     ⟨some (str "to@x"), none⟩⟩
    ⟨(str "b/p", 604800, str "e", 70), by decide⟩ ⟨str "i", rfl⟩ rfl
    ⟨str "arn:aws:connect:r:x", rfl⟩ ⟨str "+1", rfl⟩ ⟨str "to@x", rfl, by decide⟩
